import Mathlib

/-
Verification of the HyperSDK program-simulator command package
(`x/programs/cmd/simulator/cmd` and the sibling simulator variants).

The Go sources are shallowly embedded: pure helpers become Lean functions,
the mutable `state.SimpleMutable` store becomes explicit state passing,
fallible Go functions return an error-carrying result type, and a Go runtime
panic (an unchecked type assertion, an out-of-range index) is a distinct
outcome constructor.  External collaborators whose implementation is not part
of the sources (the wasmtime runtime, the avalanchego `ids` codec, the
key-generation RNG) enter as explicit oracle parameters, so every definition
stays executable.
-/

namespace Simulator

/-- Go byte slices (`[]byte`) are lists of byte values. -/
abbrev Bytes := List Nat

/-- Go `[]byte(name)` conversion: the byte view of a string.  Names handled by
the simulator are ASCII, for which the code-point view used here coincides
with UTF-8. -/
def strBytes (s : String) : Bytes := s.data.map Char.toNat

/-- Error values of the simulator `cmd` package (errors.go), plus the external
errors that surface through the same code paths.  Distinct constructors mirror
distinct `errors.New` sentinels: in particular the parse error returned by
avalanchego's `ids.FromString` is a different value from the package's
`ErrProgramNotFound`. -/
inductive SimErr where
  | programNotFound
  | duplicateKeyName
  | namedKeyNotFound (name : String)
  | invalidParamType (t : String)
  | failedParamTypeCast (t : String)
  | resultAssertionFailed
  | balanceAssertionFailed
  | invalidStep
  | invalidEndpoint
  | keyNameRequired
  | parseIDError (s : String)
  | writeBytesFailed
  | runtimeError (s : String)
  | ioError
  | convError
  deriving DecidableEq, Repr

/-- Result of a Go call: normal value, returned error, or runtime panic. -/
inductive GoResult (α : Type) where
  | ok (a : α)
  | err (e : SimErr)
  | panic
  deriving DecidableEq, Repr

/-- An `Assertion` as declared in config.go / program.go: a comparison
operator (a Go string) and a `uint64` operand. -/
structure Assertion where
  operator : String
  operand : Nat
  deriving DecidableEq, Repr

/-- The zero-valued Go `Assertion{}`. -/
def emptyAssertion : Assertion := { operator := "", operand := 0 }

/-- `validateAssertion` as defined in x/programs/cmd/simulator/cmd/config.go
(lines 111-143): six operator cases, every other operator (the empty string
included) falls through to `false`. -/
def validateAssertionCfg (actual : Nat) (assertion : Assertion) : Bool :=
  match assertion.operator with
  | ">" => if actual > assertion.operand then true else false
  | "<" => if actual < assertion.operand then true else false
  | ">=" => if actual ≥ assertion.operand then true else false
  | "<=" => if actual ≤ assertion.operand then true else false
  | "==" => if actual = assertion.operand then true else false
  | "!=" => if actual ≠ assertion.operand then true else false
  | _ => false

/-- `validateAssertion` as defined in x/programs/cmd/simulator/cmd/program.go
(lines 426-455): the same switch but with no `NotEqualTo` case, although the
file declares the `NotEqualTo` operator constant.  Its doc comment reads
"Returns true if the assertion is nil", yet no case matches the zero-valued
assertion, which therefore yields `false`. -/
def validateAssertionProg (actual : Nat) (assertion : Assertion) : Bool :=
  match assertion.operator with
  | ">" => if actual > assertion.operand then true else false
  | "<" => if actual < assertion.operand then true else false
  | ">=" => if actual ≥ assertion.operand then true else false
  | "<=" => if actual ≤ assertion.operand then true else false
  | "==" => if actual = assertion.operand then true else false
  | _ => false

/-- The pending-writes store.  Modelled from the spec: `state.SimpleMutable`
is repository code not under the sources (spec sections 3 "PendingWrites" and
4.1 "State Store Adapter"): a committed backing store plus a pending-writes
buffer; reads see the buffer first, falling back to the backing store;
`Commit` atomically applies the buffer and clears it.  Newer entries sit at
the head of each association list and shadow older ones. -/
structure SimpleMutable where
  store : List (Bytes × Bytes)
  pending : List (Bytes × Bytes)
  deriving DecidableEq, Repr

/-- GetValue: pending writes first, then the backing store; absence is the
first-class `none`, mirroring the `database.ErrNotFound` sentinel. -/
def SimpleMutable.getValue (db : SimpleMutable) (k : Bytes) : Option Bytes :=
  match List.lookup k db.pending with
  | some v => some v
  | none => List.lookup k db.store

/-- Insert: mutations accumulate in the pending-writes buffer. -/
def SimpleMutable.insert (db : SimpleMutable) (k v : Bytes) : SimpleMutable :=
  { db with pending := (k, v) :: db.pending }

/-- Commit: apply the pending buffer to the backing store and clear it. -/
def SimpleMutable.commit (db : SimpleMutable) : SimpleMutable :=
  { store := db.pending ++ db.store, pending := [] }

/-- Guest linear memory.  Modelled from the spec (section 4.2):
`runtime.WriteBytes` is repository code not under the sources; it allocates
fresh guest memory through the guest's own `alloc` export, copies the payload
and returns the guest pointer, and allocation can fail.  Pointers are block
indices; `cap` bounds the total allocated bytes (`limitMaxMemory`), with
`none` for scenarios in which the bound is never hit. -/
structure Memory where
  cap : Option Nat
  blocks : List Bytes
  deriving DecidableEq, Repr

/-- Total bytes already allocated in guest memory. -/
def Memory.used (m : Memory) : Nat := (m.blocks.map List.length).sum

/-- WriteBytes: allocate a fresh block holding `b`, returning its pointer. -/
def writeBytes (m : Memory) (b : Bytes) : GoResult (Nat × Memory) :=
  match m.cap with
  | none => .ok (m.blocks.length, { m with blocks := m.blocks ++ [b] })
  | some c =>
    if m.used + b.length ≤ c then
      .ok (m.blocks.length, { m with blocks := m.blocks ++ [b] })
    else
      .err SimErr.writeBytesFailed

/-- Read back the block a pointer refers to. -/
def readBlock (m : Memory) (ptr : Nat) : Option Bytes := m.blocks.get? ptr

/-- Go `copy` into a fresh fixed-size zeroed buffer: the source is truncated
at `n` bytes and shorter sources leave trailing zero bytes. -/
def padTrunc (n : Nat) (b : Bytes) : Bytes := b.take n ++ List.replicate (n - b.length) 0

/-- Program state key (db.go `programKey`): prefix byte 0x00 followed by the
32-byte program id. -/
def programKey (id : Bytes) : Bytes := 0 :: id

/-- Named-key state key (key.go `getPublicKey` / `setKey`): a buffer of 1+32
bytes, prefix byte 0x01, the name copied in with `copy(k[1:], []byte(name))` —
so the name is truncated at 32 bytes and shorter names leave zero padding. -/
def keyForName (name : Bytes) : Bytes := 1 :: padTrunc 32 name

/-- Modelled from the spec (section 3 "NamedKey"): the hypersdk
`crypto/ed25519` package is repository code not under the sources.  The
stored value is the 64-byte private key and only the public key is read back;
the Go conversion `ed25519.PublicKey(v)` keeps the leading
`ed25519.PublicKeyLen = 32` bytes of the stored value, which the spec
identifies as the public part of the key. -/
def toPublicKey (v : Bytes) : Bytes := v.take 32

/-- getPublicKey (key.go lines 78-90): read the value stored under the name's
state key and keep its public part; a missing binding is first-class
(`database.ErrNotFound` becomes exists = false, not an error). -/
def getPublicKey (db : SimpleMutable) (name : Bytes) : Option Bytes :=
  (db.getValue (keyForName name)).map toPublicKey

/-- setKey (key.go lines 92-97): store the 64-byte private key under the
name's state key. -/
def setKey (db : SimpleMutable) (privateKey : Bytes) (name : Bytes) : SimpleMutable :=
  db.insert (keyForName name) privateKey

/-- newKey (key.go lines 56-75): generate a private key (the RNG output is
the `priv` parameter), fail with `ErrDuplicateKeyName` when the name already
resolves to a stored key, otherwise store the private key and commit. -/
def newKey (priv : Bytes) (db : SimpleMutable) (name : Bytes) :
    SimpleMutable × Option SimErr :=
  match getPublicKey db name with
  | some _ => (db, some SimErr.duplicateKeyName)
  | none => ((setKey db priv name).commit, none)

/-- The dynamically typed value of a step parameter (a Go `interface{}` after
JSON/YAML unmarshalling).  Numbers arrive as `float64` or `int`; the numeric
payload carried here is the `uint64` that the Go conversion `uint64(v)`
produces for the value. -/
inductive Value where
  | vstr (s : String)
  | vbool (b : Bool)
  | vfloat (n : Nat)
  | vint (n : Nat)
  | vnil
  deriving DecidableEq, Repr

/-- A step parameter: declared type tag and dynamic value.  The Go field
`Type` is called `ptype` here because `type` is reserved in Lean. -/
structure Parameter where
  ptype : String
  value : Value
  deriving DecidableEq, Repr

/-- External avalanchego `ids.FromString`: decodes the canonical textual form
of a 32-byte id.  The decoder (cb58 plus checksum) lives outside this
repository, so it is an oracle parameter returning the decoded bytes or
`none` on a parse failure.  Its parse errors are values of avalanchego, never
one of the simulator package's sentinels. -/
abbrev FromStringFn := String → Option Bytes

/-- boolToUint64 (program.go lines 457-462). -/
def boolToUint64 (b : Bool) : Nat := if b then 1 else 0

/-- ASCII lower-casing of one character, the case `strings.ToLower` performs
on the type tags compared here. -/
def lowerChar (c : Char) : Char :=
  if 65 ≤ c.toNat ∧ c.toNat ≤ 90 then Char.ofNat (c.toNat + 32) else c

/-- Go `strings.ToLower` on a type tag (ASCII). -/
def toLowerGo (s : String) : String := ⟨s.data.map lowerChar⟩

/-- One iteration of the createParams loop (program.go lines 361-421): the
switch on `strings.ToLower(param.Type)`.  The `bool` case uses the unchecked
Go type assertion `param.Value.(bool)`, which panics on a value of any other
type; every other case uses the checked comma-ok form and returns
`ErrFailedParamTypeCast`.  An unrecognized type tag returns
`ErrInvalidParamType`. -/
def marshalParam (fs : FromStringFn) (db : SimpleMutable) (m : Memory) (p : Parameter) :
    GoResult (Nat × Memory) :=
  match toLowerGo p.ptype with
  | "string" =>
    match p.value with
    | .vstr s => writeBytes m (strBytes s)
    | _ => .err (SimErr.failedParamTypeCast p.ptype)
  | "bool" =>
    match p.value with
    | .vbool b => .ok (boolToUint64 b, m)
    | _ => .panic
  | "id" =>
    match p.value with
    | .vstr s =>
      match fs s with
      | some id => writeBytes m id
      | none => .err (SimErr.parseIDError s)
    | _ => .err (SimErr.failedParamTypeCast p.ptype)
  | "key" =>
    match p.value with
    | .vstr s =>
      match getPublicKey db (strBytes s) with
      | some key => writeBytes m key
      | none => .err (SimErr.namedKeyNotFound s)
    | _ => .err (SimErr.failedParamTypeCast p.ptype)
  | "uint64" =>
    match p.value with
    | .vfloat n => .ok (n, m)
    | .vint n => .ok (n, m)
    | _ => .err (SimErr.failedParamTypeCast p.ptype)
  | _ => .err (SimErr.invalidParamType p.ptype)

/-- The createParams loop over the declared parameters, head to tail, each
successful iteration appending exactly one `u64` slot. -/
def createParamsAux (fs : FromStringFn) (db : SimpleMutable) :
    Memory → List Parameter → GoResult (List Nat × Memory)
  | m, [] => .ok ([], m)
  | m, p :: ps =>
    match marshalParam fs db m p with
    | .ok (slot, m1) =>
      match createParamsAux fs db m1 ps with
      | .ok (slots, m2) => .ok (slot :: slots, m2)
      | .err e => .err e
      | .panic => .panic
    | .err e => .err e
    | .panic => .panic

/-- createParams (program.go lines 354-424): write the invoked program's own
id into guest memory first — its pointer is the first slot — then marshal the
declared parameters in order after it. -/
def createParams (fs : FromStringFn) (programID : Bytes) (m : Memory)
    (db : SimpleMutable) (ps : List Parameter) : GoResult (List Nat × Memory) :=
  match writeBytes m programID with
  | .ok (idPtr, m1) =>
    match createParamsAux fs db m1 ps with
    | .ok (slots, m2) => .ok (idPtr :: slots, m2)
    | .err e => .err e
    | .panic => .panic
  | .err e => .err e
  | .panic => .panic

/-- The `Require` block of a step: one assertion on the result, one on the
remaining fee balance. -/
structure Require where
  result : Assertion
  balance : Assertion
  deriving DecidableEq, Repr

/-- The assertion evaluation performed by `runSteps` after a successful call
(program.go lines 231-241): a zero-valued assertion is skipped, a non-zero
assertion that does not validate fails the run with the corresponding
sentinel. -/
def checkRequire (resp balance : Nat) (req : Require) : Option SimErr :=
  if req.result ≠ emptyAssertion ∧ validateAssertionProg resp req.result = false then
    some SimErr.resultAssertionFailed
  else if req.balance ≠ emptyAssertion ∧ validateAssertionProg balance req.balance = false then
    some SimErr.balanceAssertionFailed
  else
    none

/-- Outcomes of the external wasm runtime and of the RNG during one
`callProgram`: the result of `rt.Initialize`, the result of `rt.Call`
together with the state writes the guest issued through the `state` import
while it ran, the remaining meter balance, the generated call id, and the
configured memory limit. -/
structure RtOracle where
  initErr : Option SimErr
  callRes : GoResult (List Nat)
  callWrites : List (Bytes × Bytes)
  balance : Nat
  callID : Bytes
  memCap : Option Nat

/-- The fields of a program.go `Step` read by `callProgram`. -/
structure StepProg where
  programID : String
  function : String
  maxFee : Nat
  params : List Parameter
  require : Require

/-- callProgram (program.go lines 271-334).  Resolve the program id
(`inherit` uses the id of the most recent deploy step, anything else goes
through `ids.FromString`), look the program bytes up in state
(`ErrProgramNotFound` when absent), initialize the runtime, marshal the
parameters, perform the call, and only commit to state if the call is
successful.  Returns the final store, whether `db.Commit` was invoked, and
the Go return value (call id, first result, remaining balance).  The
`generateRandomID` read of the OS RNG is assumed not to fail; `db.Commit`
itself is total in the store model. -/
def callProgram (fs : FromStringFn) (o : RtOracle) (parentID : Bytes)
    (db : SimpleMutable) (step : StepProg) :
    SimpleMutable × Bool × GoResult (Bytes × Nat × Nat) :=
  match (if step.programID = "inherit" then some parentID else fs step.programID) with
  | none => (db, false, .err (SimErr.parseIDError step.programID))
  | some programID =>
    match db.getValue (programKey programID) with
    | none => (db, false, .err SimErr.programNotFound)
    | some _programBytes =>
      match o.initErr with
      | some e => (db, false, .err e)
      | none =>
        match createParams fs programID { cap := o.memCap, blocks := [] } db step.params with
        | .err e => (db, false, .err e)
        | .panic => (db, false, .panic)
        | .ok _params =>
          let db1 : SimpleMutable := { db with pending := o.callWrites ++ db.pending }
          match o.callRes with
          | .err e => (db1, false, .err e)
          | .panic => (db1, false, .panic)
          | .ok resp =>
            -- db.Commit runs before the return statement indexes resp[0],
            -- so the commit happens even when the result vector is empty
            -- and the index expression panics.
            match resp.head? with
            | some r0 => (db1.commit, true, .ok (o.callID, r0, o.balance))
            | none => (db1.commit, true, .panic)

/-- A plan.go step (the `Step` of x/programs/simulator/cmd/config.go, the
file that also declares `Plan`, the endpoint constants and the method
constants used by plan.go): endpoint, method and parameters.  `runCmd.Run`
never reads the step's `Require` block, so it is omitted. -/
structure StepP where
  description : String
  endpoint : String
  method : String
  params : List Parameter
  deriving DecidableEq, Repr

/-- Modelled from the spec (section 6 "Step response"): the `Response` /
`Result` record types printed by the driver are not under the sources.  A
record holds the step index, an optional error and an optional result with
optional id, message, response vector and balance fields. -/
structure ResultR where
  idBytes : Option Bytes
  msg : Option String
  response : Option (List Nat)
  balance : Option Nat
  deriving DecidableEq, Repr

/-- The all-`none` result record. -/
def emptyResult : ResultR :=
  { idBytes := none, msg := none, response := none, balance := none }

/-- A step response record (spec section 6).  The Go `Error` field is a
string built from the error value; the model stores the error value itself. -/
structure Response where
  id : Nat
  error : Option SimErr
  result : Option ResultR
  deriving DecidableEq, Repr

/-- How an invocation of `runCmd.Run` ends: a `return nil`, a `return err`,
or a Go runtime panic. -/
inductive RunExit where
  | retNil
  | retErr (e : SimErr)
  | panicked
  deriving DecidableEq, Repr

/-- The all-zero `ids.Empty`. -/
def emptyID : Bytes := List.replicate 32 0

/-- getProgramID (plan.go lines 228-239): consult the ProgramMap first — a Go
map read yields the zero value `ids.Empty` for an absent key, so a hit is a
non-empty mapped id — otherwise fall back to `ids.FromString`.  A parse
failure surfaces the avalanchego parse error, not one of the package's own
sentinels. -/
def getProgramID (fs : FromStringFn) (programMap : List (String × Bytes))
    (idStr : String) : Except SimErr Bytes :=
  if ((List.lookup idStr programMap).getD emptyID) ≠ emptyID then
    .ok ((List.lookup idStr programMap).getD emptyID)
  else
    match fs idStr with
    | some id => .ok id
    | none => .error (SimErr.parseIDError idStr)

/-- Modelled from the spec (section 4.5): `intToUint64` is not under the
sources; it narrows the numeric max-units parameter value to `u64` and
rejects non-numeric values. -/
def intToUint64 (v : Value) : Except SimErr Nat :=
  match v with
  | .vint n => .ok n
  | .vfloat n => .ok n
  | _ => .error SimErr.convError

/-- Modelled from the spec (section 4.5 `key` endpoint): `keyCreateFunc` is
not under the sources; the spec's named-key create operation is exactly
`newKey` of key.go, used here with the RNG output as an explicit input. -/
def keyCreateFunc (priv : Bytes) (db : SimpleMutable) (name : String) :
    SimpleMutable × Option SimErr :=
  newKey priv db (strBytes name)

/-- Modelled from the spec (section 4.5 `execute.program_create`):
`programCreateFunc` is not under the sources.  It reads the file at the given
path, assigns a fresh 32-byte ProgramID from the RNG, stores the program
bytes, and commits on success. -/
def programCreateFunc (fileBytes : Option Bytes) (newID : Bytes)
    (db : SimpleMutable) : SimpleMutable × GoResult Bytes :=
  match fileBytes with
  | none => (db, .err SimErr.ioError)
  | some bytes => ((db.insert (programKey newID) bytes).commit, .ok newID)

/-- Outcomes of the external runtime during one `programExecuteFunc`. -/
structure ExecOracle where
  callRes : GoResult (List Nat)
  callWrites : List (Bytes × Bytes)
  callID : Bytes

/-- The shape of the program-call helper invoked by the plan.go driver: it
receives the store, the resolved program id, the step parameters, the step's
method and the max-units budget, and returns the new store with the call id
and result vector. -/
abbrev CalleeFn :=
  SimpleMutable → Bytes → List Parameter → String → Nat →
    SimpleMutable × GoResult (Bytes × List Nat)

/-- Modelled from the spec (sections 4.4 "Commit semantics" and 4.5
`execute.program_execute`): `programExecuteFunc` is not under the sources.
It validates that the callee program exists (`ErrProgramNotFound` otherwise),
performs the call — the guest's writes accumulate in the pending-writes
buffer — and commits the buffer on success.  Note the signature the call site
fixes: the function receives the step's method but not the step's endpoint,
so its behaviour cannot depend on whether the driver step was `execute` or
`readonly`. -/
def programExecuteFunc (o : ExecOracle) : CalleeFn := fun db programID _params _method _maxUnits =>
  match db.getValue (programKey programID) with
  | none => (db, .err SimErr.programNotFound)
  | some _ =>
    match o.callRes with
    | .err e => (db, .err e)
    | .panic => (db, .panic)
    | .ok res =>
      (({ db with pending := o.callWrites ++ db.pending }).commit, .ok (o.callID, res))

/-- The external inputs of a plan run: the id parser, the per-step RNG
outputs for key creation and program ids, the file system, and the
program-call helper (kept abstract, its spec model being
`programExecuteFunc`). -/
structure DriverEnv where
  fromString : FromStringFn
  keyPriv : Nat → Bytes
  fileBytes : String → Option Bytes
  newID : Nat → Bytes
  callee : CalleeFn

/-- The visible effect of one iteration of the `runCmd.Run` loop: the new
store and ProgramMap, the iteration's final response value, the `Print`
calls it executed (`printedNow`, in order), the responses it registered with
`defer resp.Print()` (`deferred` — printed with their final values when `Run`
returns, since Go evaluates the deferred call's receiver pointer at defer
time and runs the calls at function exit), and the early `return` it
performed, if any. -/
structure StepEffect where
  db : SimpleMutable
  programMap : List (String × Bytes)
  resp : Response
  printedNow : List Response
  deferred : List Response
  halt : Option RunExit

/-- The execute/readonly arm of the `runCmd.Run` switch (plan.go lines
135-219; the comment there reads "for now the logic is the same for both").
The `program.create` method reads the program path, calls the create helper,
and on success binds `step_i` in the ProgramMap; every other method is the
program-call path: at least two parameters, `params[0]` must be `id`-typed
and resolves through `getProgramID`, `params[1]` must be `u64`-typed and is
the max-units budget, and the call helper receives the method — never the
endpoint.  Failures record the error in the response and `return nil`; the
response was registered by `defer resp.Print()`. -/
def runExecStep (env : DriverEnv) (db : SimpleMutable)
    (programMap : List (String × Bytes)) (i : Nat) (step : StepP) : StepEffect :=
  if step.method = "program.create" then
    let resp : Response := { id := i, error := none, result := none }
    match step.params.head? with
    | none =>
      { db := db, programMap := programMap, resp := resp, printedNow := [],
        deferred := [resp], halt := some .panicked }
    | some p0 =>
      match p0.value with
      | .vstr programPath =>
        match programCreateFunc (env.fileBytes programPath) (env.newID i) db with
        | (db1, .ok id) =>
          let resp1 := { resp with result := some ({ emptyResult with idBytes := some id }) }
          { db := db1, programMap := ("step_" ++ toString i, id) :: programMap,
            resp := resp1, printedNow := [resp1], deferred := [resp1], halt := none }
        | (db1, .err e) =>
          let resp1 := { resp with error := some e }
          { db := db1, programMap := programMap, resp := resp1, printedNow := [],
            deferred := [resp1], halt := some .retNil }
        | (db1, .panic) =>
          { db := db1, programMap := programMap, resp := resp, printedNow := [],
            deferred := [resp], halt := some .panicked }
      | _ =>
        let resp1 := { resp with error := some (SimErr.failedParamTypeCast p0.ptype) }
        { db := db, programMap := programMap, resp := resp1, printedNow := [],
          deferred := [resp1], halt := some .retNil }
  else
    let resp : Response := { id := i, error := none, result := none }
    match step.params with
    | p0 :: p1 :: _ =>
      if p0.ptype ≠ "id" then
        let resp1 := { resp with error := some (SimErr.invalidParamType p0.ptype) }
        { db := db, programMap := programMap, resp := resp1, printedNow := [],
          deferred := [resp1], halt := some .retNil }
      else
        match p0.value with
        | .vstr idStr =>
          match getProgramID env.fromString programMap idStr with
          | .error e =>
            let resp1 := { resp with error := some e }
            { db := db, programMap := programMap, resp := resp1, printedNow := [],
              deferred := [resp1], halt := some .retNil }
          | .ok programID =>
            if p1.ptype ≠ "u64" then
              let resp1 := { resp with error := some (SimErr.invalidParamType p1.ptype) }
              { db := db, programMap := programMap, resp := resp1, printedNow := [],
                deferred := [resp1], halt := some .retNil }
            else
              match intToUint64 p1.value with
              | .error e =>
                let resp1 := { resp with error := some e }
                { db := db, programMap := programMap, resp := resp1, printedNow := [],
                  deferred := [resp1], halt := some .retNil }
              | .ok maxUnits =>
                match env.callee db programID step.params step.method maxUnits with
                | (db1, .err e) =>
                  let resp1 := { resp with error := some e }
                  { db := db1, programMap := programMap, resp := resp1, printedNow := [],
                    deferred := [resp1], halt := some .retNil }
                | (db1, .panic) =>
                  { db := db1, programMap := programMap, resp := resp, printedNow := [],
                    deferred := [resp], halt := some .panicked }
                | (db1, .ok (id, result)) =>
                  if step.method = "program.execute" then
                    match result.head? with
                    | none =>
                      { db := db1, programMap := programMap, resp := resp,
                        printedNow := [], deferred := [resp], halt := some .panicked }
                    | some r0 =>
                      let res1 := { emptyResult with idBytes := some id, balance := some r0 }
                      let resp1 := { resp with result := some res1 }
                      { db := db1, programMap := programMap, resp := resp1,
                        printedNow := [resp1], deferred := [resp1], halt := none }
                  else
                    let res1 := { emptyResult with response := some result }
                    let resp1 := { resp with result := some res1 }
                    { db := db1, programMap := programMap, resp := resp1,
                      printedNow := [resp1], deferred := [resp1], halt := none }
        | _ =>
          let resp1 := { resp with error := some (SimErr.failedParamTypeCast p0.ptype) }
          { db := db, programMap := programMap, resp := resp1, printedNow := [],
            deferred := [resp1], halt := some .retNil }
    | _ =>
      let resp1 := { resp with error := some SimErr.invalidStep }
      { db := db, programMap := programMap, resp := resp1, printedNow := [],
        deferred := [resp1], halt := some .retNil }

/-- One iteration of the `runCmd.Run` loop (plan.go lines 106-224) at step
index `i`.  The `key` endpoint creates the named key — a duplicate name is
non-fatal (logged and proceeding) — and on failure records the error in the
response and returns nil without ever printing the response (the key arm has
no `defer resp.Print()` and only prints on success).  The `execute` and
`readonly` endpoints share one arm; an unknown endpoint returns
`ErrInvalidEndpoint` (a non-nil return). -/
def runStepP (env : DriverEnv) (db : SimpleMutable)
    (programMap : List (String × Bytes)) (i : Nat) (step : StepP) : StepEffect :=
  match step.endpoint with
  | "key" =>
    let resp : Response := { id := i, error := none, result := none }
    match step.params.head? with
    | none =>
      { db := db, programMap := programMap, resp := resp, printedNow := [],
        deferred := [], halt := some .panicked }
    | some p0 =>
      match p0.value with
      | .vstr keyName =>
        match keyCreateFunc (env.keyPriv i) db keyName with
        | (db1, some e) =>
          if e = SimErr.duplicateKeyName then
            let res1 := { emptyResult with msg := some ("created key " ++ keyName) }
            let resp1 := { resp with result := some res1 }
            { db := db1, programMap := programMap, resp := resp1,
              printedNow := [resp1], deferred := [], halt := none }
          else
            let resp1 := { resp with error := some e }
            { db := db1, programMap := programMap, resp := resp1, printedNow := [],
              deferred := [], halt := some .retNil }
        | (db1, none) =>
          let res1 := { emptyResult with msg := some ("created key " ++ keyName) }
          let resp1 := { resp with result := some res1 }
          { db := db1, programMap := programMap, resp := resp1,
            printedNow := [resp1], deferred := [], halt := none }
      | _ =>
        let resp1 := { resp with error := some (SimErr.failedParamTypeCast p0.ptype) }
        { db := db, programMap := programMap, resp := resp1, printedNow := [],
          deferred := [], halt := some .retNil }
  | "execute" => runExecStep env db programMap i step
  | "readonly" => runExecStep env db programMap i step
  | _ =>
    { db := db, programMap := programMap,
      resp := { id := i, error := none, result := none }, printedNow := [],
      deferred := [], halt := some (.retErr SimErr.invalidEndpoint) }

/-- The flattened output of running a list of steps: prints executed inside
the loop in order, deferred responses in registration order, the indices of
the steps entered, how the run ended, and the final store and ProgramMap. -/
structure AuxOut where
  prints : List Response
  defersReg : List Response
  stepsRun : List Nat
  exit : RunExit
  db : SimpleMutable
  programMap : List (String × Bytes)

/-- The `runCmd.Run` loop from step index `i` onwards. -/
def runPlanAux (env : DriverEnv) :
    SimpleMutable → List (String × Bytes) → Nat → List StepP → AuxOut
  | db, pm, _, [] => ⟨[], [], [], .retNil, db, pm⟩
  | db, pm, i, s :: rest =>
    match runStepP env db pm i s, (runStepP env db pm i s).halt with
    | eff, some ex =>
      ⟨eff.printedNow, eff.deferred, [i], ex, eff.db, eff.programMap⟩
    | eff, none =>
      let r := runPlanAux env eff.db eff.programMap (i + 1) rest
      ⟨eff.printedNow ++ r.prints, eff.deferred ++ r.defersReg, i :: r.stepsRun,
        r.exit, r.db, r.programMap⟩

/-- The overall print trace and outcome of `runCmd.Run`. -/
structure RunResult where
  printed : List Response
  stepsRun : List Nat
  exit : RunExit
  db : SimpleMutable
  programMap : List (String × Bytes)

/-- runCmd.Run (plan.go lines 101-226) over a plan's steps: run the loop,
then flush the deferred prints, last registered first, as Go does when the
function returns. -/
def runPlan (env : DriverEnv) (db : SimpleMutable) (steps : List StepP) : RunResult :=
  match runPlanAux env db [] 0 steps with
  | r => ⟨r.prints ++ r.defersReg.reverse, r.stepsRun, r.exit, r.db, r.programMap⟩

/-- A parser oracle that fails on every string. -/
def noParse : FromStringFn := fun _ => none

/-- A 32-byte id used by the concrete scenarios. -/
def exPID : Bytes := List.replicate 32 2

/-- A store holding one deployed program under `exPID`. -/
def exDB : SimpleMutable := { store := [(programKey exPID, [0])], pending := [] }

/-- A call step inheriting the id of the most recent deploy. -/
def exStep : StepProg :=
  { programID := "inherit", function := "f", maxFee := 0, params := [],
    require := { result := emptyAssertion, balance := emptyAssertion } }

/-- A runtime oracle for a successful call that wrote one state entry. -/
def exOracleOK : RtOracle :=
  { initErr := none, callRes := .ok [5], callWrites := [([9], [9])], balance := 10,
    callID := List.replicate 32 3, memCap := none }

/-- A runtime oracle for a call that traps. -/
def exOracleErr : RtOracle :=
  { initErr := none, callRes := .err (SimErr.runtimeError "trap"),
    callWrites := [([9], [9])], balance := 10, callID := List.replicate 32 3,
    memCap := none }

/-- A driver environment whose program-call helper is the spec-modelled
`programExecuteFunc` with a successful call that wrote one state entry, and
whose parser resolves "prog" to `exPID`. -/
def exEnv : DriverEnv :=
  { fromString := fun s => if s = "prog" then some exPID else none,
    keyPriv := fun _ => [7], fileBytes := fun _ => none,
    newID := fun _ => List.replicate 32 1,
    callee := programExecuteFunc
      { callRes := .ok [5], callWrites := [([9], [9])], callID := List.replicate 32 3 } }

/-- A readonly plan step calling "prog" with a max-units budget. -/
def exStepReadonly : StepP :=
  { description := "", endpoint := "readonly", method := "program.execute",
    params := [{ ptype := "id", value := .vstr "prog" },
               { ptype := "u64", value := .vint 100 }] }

/-- An execute plan step whose program id parses nowhere. -/
def exStepBadID : StepP :=
  { description := "", endpoint := "execute", method := "program.execute",
    params := [{ ptype := "id", value := .vstr "step_0" },
               { ptype := "u64", value := .vint 1 }] }

/-- A driver environment whose helpers are never reached. -/
def exEnvInert : DriverEnv :=
  { fromString := noParse, keyPriv := fun _ => [7], fileBytes := fun _ => none,
    newID := fun _ => List.replicate 32 1,
    callee := fun db _ _ _ _ => (db, .panic) }

/-- A key step whose name parameter is not a string (the cast fails). -/
def exBadKeyStep : StepP :=
  { description := "", endpoint := "key", method := "",
    params := [{ ptype := "string", value := .vbool true }] }

/-- A well-formed key step that would run after the failing one. -/
def exGoodKeyStep : StepP :=
  { description := "", endpoint := "key", method := "",
    params := [{ ptype := "string", value := .vstr "k" }] }

end Simulator

namespace Simulator

/-- C3 counterexample: the program.go `validateAssertion` does not implement
the `!=` operator.  At actual value 0 and operand 1 the claimed behaviour is
`true` (0 ≠ 1), but the function returns `false`. -/
theorem c3_counterexample :
    validateAssertionProg 0 { operator := "!=", operand := 1 } = false ∧ (0 : Nat) ≠ 1 := by
  exact ⟨rfl, by decide⟩

/-- C3 (amended): the config.go `validateAssertion` implements all six
comparison operators — it returns `true` exactly when the comparison holds —
while the program.go variant implements only the first five and returns
`false` on every `!=` assertion regardless of the values compared. -/
theorem c3_assertion_operators (x y : Nat) :
    (validateAssertionCfg x { operator := ">", operand := y } = true ↔ x > y) ∧
    (validateAssertionCfg x { operator := "<", operand := y } = true ↔ x < y) ∧
    (validateAssertionCfg x { operator := ">=", operand := y } = true ↔ x ≥ y) ∧
    (validateAssertionCfg x { operator := "<=", operand := y } = true ↔ x ≤ y) ∧
    (validateAssertionCfg x { operator := "==", operand := y } = true ↔ x = y) ∧
    (validateAssertionCfg x { operator := "!=", operand := y } = true ↔ x ≠ y) ∧
    (validateAssertionProg x { operator := ">", operand := y } = true ↔ x > y) ∧
    (validateAssertionProg x { operator := "<", operand := y } = true ↔ x < y) ∧
    (validateAssertionProg x { operator := ">=", operand := y } = true ↔ x ≥ y) ∧
    (validateAssertionProg x { operator := "<=", operand := y } = true ↔ x ≤ y) ∧
    (validateAssertionProg x { operator := "==", operand := y } = true ↔ x = y) ∧
    validateAssertionProg x { operator := "!=", operand := y } = false := by
  refine ⟨?_, ?_, ?_, ?_, ?_, ?_, ?_, ?_, ?_, ?_, ?_, ?_⟩ <;>
    simp [validateAssertionCfg, validateAssertionProg]

/-- C4: the program.go `validateAssertion` returns `false`, not `true`, on the
nil (zero-valued) assertion, contradicting its own doc comment; the claim's
step-level half does hold: `runSteps` skips zero-valued assertions, so a step
with no `Require` assertions never fails with an assertion error. -/
theorem c4_nil_assertion :
    validateAssertionProg 0 emptyAssertion = false ∧
    ∀ resp bal : Nat,
      checkRequire resp bal { result := emptyAssertion, balance := emptyAssertion } = none := by
  refine ⟨rfl, fun resp bal => ?_⟩
  simp [checkRequire]

/-- Looking up a key at the head of an association list. -/
theorem lookup_cons_self (k v : Bytes) (l : List (Bytes × Bytes)) :
    List.lookup k ((k, v) :: l) = some v := by
  simp [List.lookup]

/-- C9 counterexample: creating the named key "k" (byte 107) does not store
the private key at `0x01 || name` — the binding lives at the zero-padded
33-byte key instead, and nothing is stored at the 2-byte key the claim
names. -/
theorem c9_counterexample :
    ((newKey (List.replicate 64 7) { store := [], pending := [] } [107]).1.getValue
        [1, 107] = none) ∧
    ((newKey (List.replicate 64 7) { store := [], pending := [] } [107]).1.getValue
        (keyForName [107]) = some (List.replicate 64 7)) ∧
    keyForName [107] ≠ [1, 107] := by
  refine ⟨?_, ?_, ?_⟩ <;> decide

/-- C9 (amended): for a fresh name, `newKey` stores the generated private key
at the 33-byte state key `0x01 || name` copied into a 32-byte zeroed buffer
(zero-padded, truncated at 32 bytes), and a second create with the same name
fails with `ErrDuplicateKeyName`, returning the store unchanged so the stored
value is not modified. -/
theorem c9_named_key_lifecycle (db : SimpleMutable) (name priv priv2 : Bytes)
    (h : getPublicKey db name = none) :
    (newKey priv db name).2 = none ∧
    (newKey priv db name).1.getValue (keyForName name) = some priv ∧
    newKey priv2 (newKey priv db name).1 name
      = ((newKey priv db name).1, some SimErr.duplicateKeyName) := by
  have hget : ((setKey db priv name).commit).getValue (keyForName name) = some priv := by
    simp [setKey, SimpleMutable.commit, SimpleMutable.getValue, SimpleMutable.insert,
      List.lookup]
  have hnk : newKey priv db name = ((setKey db priv name).commit, none) := by
    simp [newKey, h]
  refine ⟨by simp [hnk], by simp [hnk, hget], ?_⟩
  rw [hnk]
  simp [newKey, getPublicKey, hget]

/-- A successful WriteBytes returns the next block index and appends the
payload as a fresh block. -/
theorem writeBytes_blocks {m : Memory} {b : Bytes} {ptr : Nat} {m' : Memory}
    (h : writeBytes m b = .ok (ptr, m')) :
    ptr = m.blocks.length ∧ m'.blocks = m.blocks ++ [b] := by
  unfold writeBytes at h
  split at h
  · cases h
    exact ⟨rfl, rfl⟩
  · split at h
    · cases h
      exact ⟨rfl, rfl⟩
    · cases h

/-- A successful parameter marshalling only appends to guest memory. -/
theorem marshalParam_extends {fs : FromStringFn} {db : SimpleMutable} {m : Memory}
    {p : Parameter} {slot : Nat} {m' : Memory}
    (h : marshalParam fs db m p = .ok (slot, m')) :
    ∃ tail, m'.blocks = m.blocks ++ tail := by
  unfold marshalParam at h
  repeat' split at h
  all_goals
    first
    | exact ⟨_, (writeBytes_blocks h).2⟩
    | cases h <;> exact ⟨[], (List.append_nil _).symm⟩

/-- The createParams loop yields one slot per declared parameter and only
appends to guest memory. -/
theorem createParamsAux_spec {fs : FromStringFn} {db : SimpleMutable} :
    ∀ {ps : List Parameter} {m : Memory} {slots : List Nat} {m' : Memory},
      createParamsAux fs db m ps = .ok (slots, m') →
      slots.length = ps.length ∧ ∃ tail, m'.blocks = m.blocks ++ tail := by
  intro ps
  induction ps with
  | nil =>
    intro m slots m' h
    cases h
    exact ⟨rfl, [], (List.append_nil _).symm⟩
  | cons p ps ih =>
    intro m slots m' h
    unfold createParamsAux at h
    cases hmar : marshalParam fs db m p with
    | ok sm =>
      obtain ⟨slot, m1⟩ := sm
      rw [hmar] at h
      dsimp only at h
      cases haux : createParamsAux fs db m1 ps with
      | ok sm2 =>
        obtain ⟨slots2, m2⟩ := sm2
        rw [haux] at h
        cases h
        obtain ⟨hlen, tail2, htail2⟩ := ih haux
        obtain ⟨tail1, htail1⟩ := marshalParam_extends hmar
        refine ⟨by simp [hlen], tail1 ++ tail2, ?_⟩
        rw [htail2, htail1, List.append_assoc]
      | err e => rw [haux] at h; cases h
      | panic => rw [haux] at h; cases h
    | err e => rw [hmar] at h; cases h
    | panic => rw [hmar] at h; cases h

/-- C6: on success createParams emits, for every parameter list (the empty
list included), a first slot that is a pointer to a freshly allocated guest
block — a block that did not exist before the call — holding exactly the
invoked program's own 32-byte id, and the declared parameters contribute
exactly one slot each after it, in declaration order. -/
theorem c6_first_slot_is_program_id (fs : FromStringFn) (programID : Bytes)
    (m : Memory) (db : SimpleMutable) (ps : List Parameter) (out : List Nat)
    (m' : Memory) (hlen : programID.length = 32)
    (h : createParams fs programID m db ps = .ok (out, m')) :
    ∃ rest, out = m.blocks.length :: rest ∧
      readBlock m m.blocks.length = none ∧
      readBlock m' m.blocks.length = some programID ∧
      rest.length = ps.length := by
  unfold createParams at h
  cases hw : writeBytes m programID with
  | ok pm =>
    obtain ⟨idPtr, m1⟩ := pm
    rw [hw] at h
    dsimp only at h
    cases haux : createParamsAux fs db m1 ps with
    | ok sm =>
      obtain ⟨slots, m2⟩ := sm
      rw [haux] at h
      cases h
      obtain ⟨hptr, hblocks⟩ := writeBytes_blocks hw
      obtain ⟨hslots, tail, htail⟩ := createParamsAux_spec haux
      subst hptr
      refine ⟨slots, rfl, ?_, ?_, hslots⟩
      · exact List.get?_eq_none.2 (le_refl _)
      · unfold readBlock
        rw [htail, hblocks, List.append_assoc, List.get?_append_right (le_refl _)]
        simp
    | err e => rw [haux] at h; cases h
    | panic => rw [haux] at h; cases h
  | err e => rw [hw] at h; cases h
  | panic => rw [hw] at h; cases h

/-- C6 witness: a concrete successful createParams run with one `uint64`
parameter: the first slot points at the freshly written program id. -/
theorem c6_witness :
    ∃ rest, ([0, 7] : List Nat) = ([] : List Bytes).length :: rest ∧
      readBlock { cap := none, blocks := [] } ([] : List Bytes).length = none ∧
      readBlock { cap := none, blocks := [List.replicate 32 9] }
        ([] : List Bytes).length = some (List.replicate 32 9) ∧
      rest.length = [Parameter.mk "uint64" (Value.vint 7)].length :=
  c6_first_slot_is_program_id (fun _ => none) (List.replicate 32 9)
    { cap := none, blocks := [] } { store := [], pending := [] }
    [Parameter.mk "uint64" (Value.vint 7)] [0, 7]
    { cap := none, blocks := [List.replicate 32 9] } (by decide) (by decide)

/-- C7: an unrecognized declared type yields `ErrInvalidParamType`, but a
`bool`-declared parameter whose runtime value is not a bool makes createParams
panic (the unchecked Go type assertion `param.Value.(bool)`), instead of the
claimed `ErrFailedParamTypeCast`. -/
theorem c7_bool_param_panics :
    createParams (fun _ => none) (List.replicate 32 9) { cap := none, blocks := [] }
        { store := [], pending := [] } [Parameter.mk "bool" (Value.vstr "x")] = .panic ∧
    createParams (fun _ => none) (List.replicate 32 9) { cap := none, blocks := [] }
        { store := [], pending := [] } [Parameter.mk "float" (Value.vint 1)]
      = .err (SimErr.invalidParamType "float") ∧
    createParams (fun _ => none) (List.replicate 32 9) { cap := none, blocks := [] }
        { store := [], pending := [] } [Parameter.mk "uint64" (Value.vstr "x")]
      = .err (SimErr.failedParamTypeCast "uint64") := by
  refine ⟨?_, ?_, ?_⟩ <;> decide

/-- C8: a `key`-typed parameter naming key `name` makes createParams read the
value stored under the name's state key and write only its public part (the
leading 32 bytes, not the 64-byte private key) into a fresh guest block whose
pointer becomes the parameter's slot; a missing name fails the call with
`ErrNamedKeyNotFound`. -/
theorem c8_key_param_public_part (fs : FromStringFn) (programID : Bytes)
    (db : SimpleMutable) (name : String) (blocks : List Bytes) :
    (∀ v, db.getValue (keyForName (strBytes name)) = some v →
      ∃ m', createParams fs programID { cap := none, blocks := blocks } db
            [Parameter.mk "key" (Value.vstr name)]
          = .ok ([blocks.length, blocks.length + 1], m') ∧
        readBlock m' (blocks.length + 1) = some (v.take 32)) ∧
    (db.getValue (keyForName (strBytes name)) = none →
      createParams fs programID { cap := none, blocks := blocks } db
          [Parameter.mk "key" (Value.vstr name)]
        = .err (SimErr.namedKeyNotFound name)) := by
  have hlow : toLowerGo "key" = "key" := by decide
  constructor
  · intro v hv
    refine ⟨{ cap := none, blocks := blocks ++ [programID] ++ [v.take 32] }, ?_, ?_⟩
    · simp [createParams, createParamsAux, marshalParam, writeBytes, hlow,
        getPublicKey, hv, toPublicKey]
    · unfold readBlock
      have : blocks.length + 1 = (blocks ++ [programID]).length := by simp
      rw [this, List.get?_append_right (le_refl _)]
      simp
  · intro hv
    simp [createParams, createParamsAux, marshalParam, writeBytes, hlow,
      getPublicKey, hv]

/-- C8 witness: a concrete stored 64-byte key is read back as its leading 32
bytes, and the missing-name case fails with the named-key sentinel. -/
theorem c8_witness :
    (∃ m', createParams (fun _ => none) (List.replicate 32 9)
          { cap := none, blocks := [] }
          { store := [(keyForName (strBytes "k"), List.replicate 64 7)], pending := [] }
          [Parameter.mk "key" (Value.vstr "k")]
        = .ok ([0, 1], m') ∧
      readBlock m' 1 = some ((List.replicate 64 7).take 32)) ∧
    createParams (fun _ => none) (List.replicate 32 9) { cap := none, blocks := [] }
        { store := [], pending := [] } [Parameter.mk "key" (Value.vstr "k")]
      = .err (SimErr.namedKeyNotFound "k") := by
  constructor
  · exact (c8_key_param_public_part (fun _ => none) (List.replicate 32 9)
      { store := [(keyForName (strBytes "k"), List.replicate 64 7)], pending := [] }
      "k" []).1 (List.replicate 64 7) (by decide)
  · exact (c8_key_param_public_part (fun _ => none) (List.replicate 32 9)
      { store := [], pending := [] } "k" []).2 (by decide)

/-- C1: callProgram commits the pending-writes buffer iff the call succeeds.
On any returned error no commit happened and the backing store is unchanged;
the commit flag is raised only when `rt.Call` returned without error; and a
successful return means the buffer — the guest's writes included — was
applied to the backing store and cleared. -/
theorem c1_commit_iff_call_success (fs : FromStringFn) (o : RtOracle)
    (parentID : Bytes) (db : SimpleMutable) (step : StepProg) :
    (∀ e, (callProgram fs o parentID db step).2.2 = .err e →
      (callProgram fs o parentID db step).2.1 = false ∧
      (callProgram fs o parentID db step).1.store = db.store) ∧
    ((callProgram fs o parentID db step).2.1 = true →
      ∃ resp, o.callRes = .ok resp) ∧
    (∀ v, (callProgram fs o parentID db step).2.2 = .ok v →
      (callProgram fs o parentID db step).2.1 = true ∧
      (callProgram fs o parentID db step).1.store
        = (o.callWrites ++ db.pending) ++ db.store ∧
      (callProgram fs o parentID db step).1.pending = []) := by
  unfold callProgram
  repeat' split
  all_goals simp_all [SimpleMutable.commit]

/-- C1 witness: at a concrete successful call the commit flag is raised and
the buffer reaches the backing store; at a concrete trapping call the flag
stays down and the backing store is untouched. -/
theorem c1_witness :
    ((callProgram noParse exOracleOK exPID exDB exStep).2.1 = true ∧
      (callProgram noParse exOracleOK exPID exDB exStep).1.store
        = (exOracleOK.callWrites ++ exDB.pending) ++ exDB.store ∧
      (callProgram noParse exOracleOK exPID exDB exStep).1.pending = []) ∧
    ((callProgram noParse exOracleErr exPID exDB exStep).2.1 = false ∧
      (callProgram noParse exOracleErr exPID exDB exStep).1.store = exDB.store) := by
  have hok : (callProgram noParse exOracleOK exPID exDB exStep).2.2
      = .ok (exOracleOK.callID, 5, 10) := by decide
  have herr : (callProgram noParse exOracleErr exPID exDB exStep).2.2
      = .err (SimErr.runtimeError "trap") := by decide
  exact ⟨(c1_commit_iff_call_success noParse exOracleOK exPID exDB exStep).2.2
      (exOracleOK.callID, 5, 10) hok,
    (c1_commit_iff_call_success noParse exOracleErr exPID exDB exStep).1
      (SimErr.runtimeError "trap") herr⟩

/-- C2 (amended): the driver processes a `readonly` step exactly as it
processes the `execute` step with the same method and parameters — the two
endpoints share one arm of the `runCmd.Run` switch and the program-call
helper never receives the endpoint — so a successful readonly call commits
precisely as the execute call does and the backing store is not restored. -/
theorem c2_readonly_equals_execute (env : DriverEnv) (db : SimpleMutable)
    (pm : List (String × Bytes)) (i : Nat) (step : StepP) :
    runStepP env db pm i { step with endpoint := "readonly" }
      = runStepP env db pm i { step with endpoint := "execute" } := by
  cases step
  rfl

/-- C2 counterexample: a concrete successful readonly step (spec-modelled
program-call helper committing on success) leaves the backing store changed, not
bit-identical to the pre-call store. -/
theorem c2_counterexample :
    exStepReadonly.endpoint = "readonly" ∧
    (runStepP exEnv exDB [] 0 exStepReadonly).halt = none ∧
    (runStepP exEnv exDB [] 0 exStepReadonly).db.store ≠ exDB.store := by
  refine ⟨rfl, ?_, ?_⟩ <;> decide

/-- C5 (amended): getProgramID consults the ProgramMap first (any non-empty
bound id wins), falls back to `ids.FromString` otherwise, and when both
resolutions fail the step error is the parser's parse error —
`ErrProgramNotFound` is never produced by this resolution. -/
theorem c5_program_id_resolution (fs : FromStringFn) (m : List (String × Bytes))
    (s : String) :
    (∀ id, List.lookup s m = some id → id ≠ emptyID → getProgramID fs m s = .ok id) ∧
    ((List.lookup s m).getD emptyID = emptyID →
      getProgramID fs m s
        = match fs s with
          | some id => .ok id
          | none => .error (SimErr.parseIDError s)) ∧
    (∀ e, getProgramID fs m s = .error e → e = SimErr.parseIDError s) := by
  refine ⟨?_, ?_, ?_⟩
  · intro id hl hne
    simp [getProgramID, hl, hne]
  · intro h
    simp [getProgramID, h]
  · intro e he
    unfold getProgramID at he
    split at he
    · cases he
    · revert he
      cases fs s with
      | some id => intro he; cases he
      | none => intro he; cases he; rfl

/-- C5 witness: the resolution order and the parse-failure error at concrete
inputs. -/
theorem c5_witness :
    getProgramID noParse [("step_0", [3])] "step_0" = .ok [3] ∧
    getProgramID noParse [] "zzz" = .error (SimErr.parseIDError "zzz") ∧
    ∀ e, getProgramID noParse [] "zzz" = .error e → e = SimErr.parseIDError "zzz" := by
  refine ⟨?_, ?_, ?_⟩
  · exact (c5_program_id_resolution noParse [("step_0", [3])] "step_0").1 [3]
      (by decide) (by decide)
  · exact (c5_program_id_resolution noParse [] "zzz").2.1 (by decide)
  · exact (c5_program_id_resolution noParse [] "zzz").2.2

/-- C5 counterexample: when the map lookup misses and the parse fails, the
step records the avalanchego parse error, which is not `ErrProgramNotFound`. -/
theorem c5_counterexample :
    (runStepP exEnvInert { store := [], pending := [] } [] 3 exStepBadID).resp.error
      = some (SimErr.parseIDError "step_0") ∧
    SimErr.parseIDError "step_0" ≠ SimErr.programNotFound := by
  refine ⟨?_, ?_⟩ <;> decide

/-- A halting step ends the loop: its prints and its registered deferred
prints are the whole run's, only its index ran, and the exit is the step's
return value. -/
theorem runPlanAux_halt {env : DriverEnv} {db : SimpleMutable}
    {pm : List (String × Bytes)} {i : Nat} {s : StepP} {rest : List StepP}
    {ex : RunExit} (h : (runStepP env db pm i s).halt = some ex) :
    runPlanAux env db pm i (s :: rest)
      = ⟨(runStepP env db pm i s).printedNow, (runStepP env db pm i s).deferred,
         [i], ex, (runStepP env db pm i s).db, (runStepP env db pm i s).programMap⟩ := by
  unfold runPlanAux
  rw [h]

/-- Shape of an early nil return of `runCmd.Run`: the response carries an
error; a key-endpoint step prints its response only on success and never
defers it; an execute/readonly step that returns nil early has registered
exactly its final response for the deferred print. -/
theorem runStepP_retNil_shape (env : DriverEnv) (db : SimpleMutable)
    (pm : List (String × Bytes)) (i : Nat) (step : StepP) :
    ((runStepP env db pm i step).halt = some RunExit.retNil →
      (runStepP env db pm i step).resp.error.isSome = true) ∧
    (step.endpoint = "key" →
      (runStepP env db pm i step).printedNow
        = (if (runStepP env db pm i step).halt = none
            then [(runStepP env db pm i step).resp] else []) ∧
      (runStepP env db pm i step).deferred = []) ∧
    ((step.endpoint = "execute" ∨ step.endpoint = "readonly") →
      (runStepP env db pm i step).halt = some RunExit.retNil →
      (runStepP env db pm i step).deferred = [(runStepP env db pm i step).resp]) := by
  unfold runStepP runExecStep
  repeat' split
  all_goals refine ⟨?_, ?_, ?_⟩ <;> intros <;> simp_all

/-- C10 (amended): when step i returns nil early — a parameter-cast failure,
a non-duplicate key-creation error, or a program create/execute error — the
run stops after step i, `Run` returns nil, and the error is recorded in that
step's response; the response reaches the printed output only through the
deferred print of the execute/readonly arms, while a failing key step's
response is never printed (its arm registers no deferred print and prints
only on success). -/
theorem c10_failing_step (env : DriverEnv) (db : SimpleMutable)
    (pm : List (String × Bytes)) (i : Nat) (step : StepP) (rest : List StepP)
    (h : (runStepP env db pm i step).halt = some RunExit.retNil) :
    (runPlanAux env db pm i (step :: rest)).exit = RunExit.retNil ∧
    (runPlanAux env db pm i (step :: rest)).stepsRun = [i] ∧
    (runStepP env db pm i step).resp.error.isSome = true ∧
    (step.endpoint = "key" →
      (runPlanAux env db pm i (step :: rest)).prints = [] ∧
      (runPlanAux env db pm i (step :: rest)).defersReg = []) ∧
    ((step.endpoint = "execute" ∨ step.endpoint = "readonly") →
      (runPlanAux env db pm i (step :: rest)).defersReg
        = [(runStepP env db pm i step).resp]) := by
  have hshape := runStepP_retNil_shape env db pm i step
  rw [runPlanAux_halt h]
  refine ⟨rfl, rfl, hshape.1 h, ?_, ?_⟩
  · intro hk
    obtain ⟨hp, hd⟩ := hshape.2.1 hk
    rw [hp, hd, h]
    simp
  · intro hk
    exact hshape.2.2 hk h

/-- C10 witness: the amended behaviour at a concrete two-step plan whose
first step is a key step with a non-string name parameter. -/
theorem c10_witness :
    (runPlanAux exEnvInert { store := [], pending := [] } [] 0
        [exBadKeyStep, exGoodKeyStep]).exit = RunExit.retNil ∧
    (runPlanAux exEnvInert { store := [], pending := [] } [] 0
        [exBadKeyStep, exGoodKeyStep]).stepsRun = [0] ∧
    (runStepP exEnvInert { store := [], pending := [] } [] 0
        exBadKeyStep).resp.error.isSome = true ∧
    (runPlanAux exEnvInert { store := [], pending := [] } [] 0
        [exBadKeyStep, exGoodKeyStep]).prints = [] ∧
    (runPlanAux exEnvInert { store := [], pending := [] } [] 0
        [exBadKeyStep, exGoodKeyStep]).defersReg = [] := by
  have h := c10_failing_step exEnvInert { store := [], pending := [] } [] 0
    exBadKeyStep [exGoodKeyStep] (by decide)
  exact ⟨h.1, h.2.1, h.2.2.1, (h.2.2.2.1 rfl).1, (h.2.2.2.1 rfl).2⟩

/-- C10 counterexample: at a concrete plan whose step 0 is a key step failing
the name cast, the run stops and returns nil as claimed, but the error is
recorded in a response that is never printed — the printed output is empty —
so the error is not recorded in that step's printed response. -/
theorem c10_counterexample :
    (runPlan exEnvInert { store := [], pending := [] }
        [exBadKeyStep, exGoodKeyStep]).exit = RunExit.retNil ∧
    (runPlan exEnvInert { store := [], pending := [] }
        [exBadKeyStep, exGoodKeyStep]).stepsRun = [0] ∧
    (runStepP exEnvInert { store := [], pending := [] } [] 0 exBadKeyStep).resp.error
      = some (SimErr.failedParamTypeCast "string") ∧
    (runPlan exEnvInert { store := [], pending := [] }
        [exBadKeyStep, exGoodKeyStep]).printed = [] := by
  refine ⟨?_, ?_, ?_, ?_⟩ <;> decide

/-- C9 witness: the amended lifecycle at a concrete fresh store and name. -/
theorem c9_witness :
    (newKey [5] { store := [], pending := [] } [107]).2 = none ∧
    (newKey [5] { store := [], pending := [] } [107]).1.getValue (keyForName [107])
      = some [5] ∧
    newKey [6] (newKey [5] { store := [], pending := [] } [107]).1 [107]
      = ((newKey [5] { store := [], pending := [] } [107]).1, some SimErr.duplicateKeyName) :=
  c9_named_key_lifecycle { store := [], pending := [] } [107] [5] [6] (by decide)

end Simulator
